import Mathlib

/-!
Verification of the lane-runner game core.

The definitions below are a shallow embedding of the repository's
simulation core and game-state store:

* the authoritative state store is the variant in `src/fullscreen.ts`
  that carries a `speedMultiplier` field (the one imported by
  `src/components/World/LevelManager.tsx`): `takeDamage`,
  `collectLetter`, `advanceLevel`, `buyItem`, `addScore`;
* the per-entity motion/interaction pass and the spawn planner come
  from the `useFrame` body of `src/components/World/LevelManager.tsx`;
* numeric JS values are modelled as `Int` (counters, lives, score) and
  `ℚ` (positions, speeds, distances).  `Math.random()` draws are
  modelled as oracle inputs supplied to the step functions.

Fields that are pure presentation state (language, uuid identifiers)
are omitted; entity colors are kept because burst events carry them.
-/

namespace Runner

/-! ## Constants (src/App.tsx types section, LevelManager.tsx) -/

def LANE_WIDTH : ℚ := 11/5        -- 2.2
def RUN_SPEED_BASE : ℚ := 45/2    -- 22.5
def SPAWN_DISTANCE : ℚ := 120
def REMOVE_DISTANCE : ℚ := 20
def OBSTACLE_HEIGHT : ℚ := 8/5    -- 1.6
def MISSILE_SPEED : ℚ := 30
def BASE_LETTER_INTERVAL : ℚ := 150
def MAX_LEVEL : Int := 3

/-- `const GEMINI_TARGET = ['G', 'E', 'M', 'I', 'N', 'I']` -/
def GEMINI_TARGET : List String := ["G", "E", "M", "I", "N", "I"]

/-! ## Game state store (src/fullscreen.ts, speedMultiplier variant) -/

inductive GameStatus
  | MENU | PLAYING | SHOP | GAME_OVER | VICTORY
  deriving DecidableEq, Repr

inductive GameMode
  | STORY | ENDLESS
  deriving DecidableEq, Repr

inductive ItemType
  | DOUBLE_JUMP | MAX_LIFE | HEAL | IMMORTAL
  deriving DecidableEq, Repr

structure GameState where
  status : GameStatus
  mode : GameMode
  score : Int
  lives : Int
  maxLives : Int
  speed : ℚ
  speedMultiplier : ℚ
  scoreMultiplier : ℚ
  collectedLetters : List Nat
  level : Int
  laneCount : Int
  gemsCollected : Int
  distance : ℚ
  hasDoubleJump : Bool
  hasImmortality : Bool
  isImmortalityActive : Bool
  isControlsInverted : Bool
  isMagnetActive : Bool
  shieldCharges : Int
  deriving DecidableEq, Repr

/-- The state installed by `startGame` (fullscreen.ts lines 690-716). -/
def startGameState : GameState where
  status := .PLAYING
  mode := .STORY
  score := 0
  lives := 6
  maxLives := 6
  speed := RUN_SPEED_BASE
  speedMultiplier := 1
  scoreMultiplier := 1
  collectedLetters := []
  level := 1
  laneCount := 3
  gemsCollected := 0
  distance := 0
  hasDoubleJump := false
  hasImmortality := false
  isImmortalityActive := false
  isControlsInverted := false
  isMagnetActive := false
  shieldCharges := 0

/-- `takeDamage` (fullscreen.ts lines 746-761). -/
def takeDamage (s : GameState) : GameState :=
  if s.isImmortalityActive then s
  else if s.shieldCharges > 0 then
    { s with shieldCharges := max 0 (s.shieldCharges - 1) }
  else if s.lives > 1 then
    { s with lives := s.lives - 1 }
  else
    { s with lives := 0, status := .GAME_OVER, speed := 0 }

/-- `addScore` (fullscreen.ts lines 763-766): adds
`Math.floor(amount * scoreMultiplier)`. -/
def addScore (s : GameState) (amount : Int) : GameState :=
  { s with score := s.score + ⌊(amount : ℚ) * s.scoreMultiplier⌋ }

/-- `advanceLevel` (fullscreen.ts lines 819-834). -/
def advanceLevel (s : GameState) : GameState :=
  { s with
    level := s.level + 1
    laneCount := min (s.laneCount + 2) 9
    status := .PLAYING
    speed := s.speed + RUN_SPEED_BASE * (25/100)
    collectedLetters := [] }

/-- Which level transition a `collectLetter` call triggered. -/
inductive LevelEvent
  | advance | endless
  deriving DecidableEq, Repr

/-- `collectLetter` (fullscreen.ts lines 779-817), instrumented with the
level transition it performs.  In ENDLESS mode letters are plain score
pickups; in STORY mode a membership check guards duplicates, a collected
letter adds `RUN_SPEED_BASE * 0.06` speed, and completing the 6-letter
word either advances the level (`level < MAX_LEVEL`) or switches to
ENDLESS with a 5000 score bonus. -/
def collectLetterE (s : GameState) (index : Nat) : GameState × Option LevelEvent :=
  if s.mode = .ENDLESS then (addScore s 250, none)
  else if index ∈ s.collectedLetters then (s, none)
  else
    let newLetters := s.collectedLetters ++ [index]
    let speedIncrease := RUN_SPEED_BASE * (6/100)
    let nextSpeed := s.speed + speedIncrease
    let s1 := { s with collectedLetters := newLetters, speed := nextSpeed }
    if newLetters.length = GEMINI_TARGET.length then
      if s.level < MAX_LEVEL then (advanceLevel s1, some .advance)
      else
        ({ s1 with
            mode := .ENDLESS
            status := .PLAYING
            score := s1.score + 5000
            collectedLetters := [] }, some .endless)
    else (s1, none)

/-- The state effect of `collectLetter`. -/
def collectLetter (s : GameState) (index : Nat) : GameState :=
  (collectLetterE s index).1

/-- One letter collection inside a transition-counting fold: the pair
of counters records how many advance-level and how many
endless-switch transitions `collectLetter` has performed. -/
def collectStep (p : GameState × Nat × Nat) (i : Nat) : GameState × Nat × Nat :=
  let r := collectLetterE p.1 i
  match r.2 with
  | some LevelEvent.advance => (r.1, p.2.1 + 1, p.2.2)
  | some LevelEvent.endless => (r.1, p.2.1, p.2.2 + 1)
  | none => (r.1, p.2.1, p.2.2)

/-- Collect a sequence of letters, counting level transitions. -/
def collectRun (s : GameState) (l : List Nat) : GameState × Nat × Nat :=
  l.foldl collectStep (s, 0, 0)

/-- `buyItem` (fullscreen.ts lines 839-867). -/
def buyItem (s : GameState) (type : ItemType) (cost : Int) : Bool × GameState :=
  if type = .MAX_LIFE ∧ s.maxLives ≥ 6 then (false, s)
  else if s.score ≥ cost then
    let s1 := { s with score := s.score - cost }
    match type with
    | .DOUBLE_JUMP => (true, { s1 with hasDoubleJump := true })
    | .MAX_LIFE =>
        let nextMax := min (s.maxLives + 1) 6
        let nextLives := min (s.lives + 1) nextMax
        (true, { s1 with maxLives := nextMax, lives := nextLives })
    | .HEAL => (true, { s1 with lives := min (s.lives + 1) s.maxLives })
    | .IMMORTAL => (true, { s1 with hasImmortality := true })
  else (false, s)

/-- `getLetterInterval` (LevelManager.tsx lines 54-59):
`BASE_LETTER_INTERVAL * Math.pow(1.5, Math.max(0, level - 1))`. -/
def getLetterInterval (level : Int) : ℚ :=
  BASE_LETTER_INTERVAL * (3/2 : ℚ) ^ (max 0 (level - 1)).toNat

/-- A Story-mode state one letter away from completing the word:
letters 0,1,2,4,5 collected, index 3 missing. -/
def nearWordState : GameState :=
  { startGameState with collectedLetters := [0, 1, 2, 4, 5] }

/-! ## Entities and the motion/interaction pass (LevelManager.tsx) -/

inductive ObjectType
  | OBSTACLE | GEM | LETTER | SHOP_PORTAL | ALIEN | MISSILE | POWERUP
  deriving DecidableEq, Repr

/-- Power-up subtypes of the types module used by `LevelManager`. -/
inductive PowerUpKind
  | SHIELD | MAGNET | SCORE_X2 | SLOW | BOOST | INVERT
  deriving DecidableEq, Repr

/-- `GameObject` (types module): position split into `x` (lane axis),
`y` (vertical), `z` (forward axis); optional fields default like JS
`undefined`/falsy values.  The `id`/`value` fields are visual-only and
omitted. -/
structure GameObject where
  type : ObjectType
  x : ℚ
  y : ℚ
  z : ℚ
  active : Bool
  color : Option String := none
  targetIndex : Option Nat := none
  points : Option Int := none
  hasFired : Bool := false
  powerUpType : Option PowerUpKind := none
  deriving DecidableEq, Repr

/-- Outbound signals of one tick: store mutation calls and window
events (`player-hit`, `particle-burst`, `openShop`). -/
inductive GameEvent
  | playerHit
  | particleBurst (x y z : ℚ) (color : String)
  | openShop
  | collectGem (points : Int)
  | collectLetter (idx : Nat)
  | applyPowerUp (p : PowerUpKind)
  deriving DecidableEq, Repr

/-- Read-only per-tick inputs of the motion/interaction pass. -/
structure TickConfig where
  dist : ℚ
  safeDelta : ℚ
  isMagnetActive : Bool
  playerX : ℚ
  playerY : ℚ
  playerZ : ℚ
  deriving DecidableEq, Repr

/-- Movement this tick: missiles add `MISSILE_SPEED * safeDelta` on top
of the world scroll. -/
def moveAmountFor (c : TickConfig) (o : GameObject) : ℚ :=
  if o.type = .MISSILE then c.dist + MISSILE_SPEED * c.safeDelta else c.dist

/-- `obj.type === OBSTACLE || obj.type === ALIEN || obj.type === MISSILE`. -/
def isDamageSource (t : ObjectType) : Bool :=
  t == .OBSTACLE || t == .ALIEN || t == .MISSILE

/-- JS `obj.points || 50`: `0`, like `undefined`, falls back to 50. -/
def pointsOr50 (o : GameObject) : Int :=
  match o.points with
  | some v => if v = 0 then 50 else v
  | none => 50

/-- JS `obj.color || '#ffffff'`: the empty string falls back to white. -/
def colorOrWhite (o : GameObject) : String :=
  match o.color with
  | some c => if c = "" then "#ffffff" else c
  | none => "#ffffff"

/-- Bottom of a damage source's vertical extent: obstacles occupy
ground-to-height, missiles a fixed band at Y=1, others a band around
their spawn height. -/
def damageBottom (o : GameObject) : ℚ :=
  if o.type = .OBSTACLE then 0
  else if o.type = .MISSILE then 1/2
  else o.y - 1/2

/-- Top of a damage source's vertical extent. -/
def damageTop (o : GameObject) : ℚ :=
  if o.type = .OBSTACLE then OBSTACLE_HEIGHT
  else if o.type = .MISSILE then 3/2
  else o.y + 1/2

/-- Result of processing one entity for one tick. -/
structure StepResult where
  obj : GameObject
  newSpawns : List GameObject
  events : List GameEvent
  keep : Bool
  deriving DecidableEq, Repr

/-- `obj.position[2] += moveAmount` (LevelManager.tsx line 300). -/
def afterMove (c : TickConfig) (o : GameObject) : GameObject :=
  { o with z := o.z + moveAmountFor c o }

/-- Magnet pull (lines 302-312): active pickups within 28 units are
pulled laterally toward the player. -/
def afterMagnet (c : TickConfig) (o : GameObject) : GameObject :=
  if c.isMagnetActive = true ∧ o.active = true ∧
      (o.type = .GEM ∨ o.type = .LETTER ∨ o.type = .POWERUP) ∧
      |o.z - c.playerZ| < 28 then
    { o with x := o.x + (c.playerX - o.x) * c.safeDelta * (7/2) }
  else o

/-- Alien firing condition (lines 315-317): an active alien that has
not fired and is within `z > -90`. -/
def alienFires (o : GameObject) : Prop :=
  o.type = .ALIEN ∧ o.active = true ∧ o.hasFired = false ∧ o.z > -90

instance (o : GameObject) : Decidable (alienFires o) := by
  unfold alienFires
  infer_instance

/-- Entity after the alien-fire block: the one-shot flag is set when
the fire condition holds. -/
def afterFire (c : TickConfig) (o0 : GameObject) : GameObject :=
  if alienFires (afterMagnet c (afterMove c o0)) then
    { afterMagnet c (afterMove c o0) with hasFired := true }
  else afterMagnet c (afterMove c o0)

/-- Missile spawned by an alien fire (lines 321-327). -/
def fireSpawns (c : TickConfig) (o0 : GameObject) : List GameObject :=
  if alienFires (afterMagnet c (afterMove c o0)) then
    [{ type := .MISSILE, x := (afterMagnet c (afterMove c o0)).x, y := 1,
       z := (afterMagnet c (afterMove c o0)).z + 2,
       active := true, color := some "#ff0000" }]
  else []

/-- Visual flare event of an alien fire (lines 330-333). -/
def fireEvents (c : TickConfig) (o0 : GameObject) : List GameEvent :=
  if alienFires (afterMagnet c (afterMove c o0)) then
    [.particleBurst (afterMagnet c (afterMove c o0)).x
      (afterMagnet c (afterMove c o0)).y
      (afterMagnet c (afterMove c o0)).z "#ff00ff"]
  else []

/-- Collision resolution (lines 337-425): returns the possibly
deactivated entity, the emitted events, and the keep flag before the
removal-threshold check.  `prevZ` is the pre-move longitudinal
position; the swept test brackets the player between `prevZ` and the
post-move position. -/
def interactStep (c : TickConfig) (prevZ : ℚ) (o : GameObject) :
    GameObject × List GameEvent × Bool :=
  if o.active = true then
    if o.type = .SHOP_PORTAL then
      if |o.z - c.playerZ| < 2 then
        ({ o with active := false }, [.openShop], false)
      else (o, [], true)
    else if prevZ < c.playerZ + 2 ∧ o.z > c.playerZ - 2 then
      if |o.x - c.playerX| <
          (if isDamageSource o.type then 9/10
           else if c.isMagnetActive then 21/10 else 9/10) then
        if isDamageSource o.type then
          if c.playerY < damageTop o ∧ c.playerY + 9/5 > damageBottom o then
            ({ o with active := false },
             GameEvent.playerHit ::
               (if o.type = .MISSILE then
                  [.particleBurst o.x o.y o.z "#ff4400"] else []),
             true)
          else (o, [], true)
        else
          if |o.y - c.playerY| < 14/5 then
            ({ o with active := false },
             ((if o.type = .GEM then [GameEvent.collectGem (pointsOr50 o)] else []) ++
              (if o.type = .LETTER then
                 match o.targetIndex with
                 | some idx => [GameEvent.collectLetter idx]
                 | none => []
               else []) ++
              (if o.type = .POWERUP then
                 match o.powerUpType with
                 | some p => [GameEvent.applyPowerUp p]
                 | none => []
               else [])) ++
              [.particleBurst o.x o.y o.z (colorOrWhite o)],
             true)
          else (o, [], true)
      else (o, [], true)
    else (o, [], true)
  else (o, [], true)

/-- One entity's slice of the `useFrame` loop body (LevelManager.tsx
lines 289-435): move, magnet pull, alien fire, swept collision against
the player, and the removal-threshold check. -/
def stepObject (c : TickConfig) (o0 : GameObject) : StepResult :=
  { obj := (interactStep c o0.z (afterFire c o0)).1
    newSpawns := fireSpawns c o0
    events := fireEvents c o0 ++ (interactStep c o0.z (afterFire c o0)).2.1
    keep :=
      if (interactStep c o0.z (afterFire c o0)).1.z > REMOVE_DISTANCE then false
      else (interactStep c o0.z (afterFire c o0)).2.2 }

/-- The spec scenario tick: player at the origin, 2.5 units of scroll
in one tick. -/
def scenarioTick : TickConfig :=
  { dist := 5/2, safeDelta := 1/20, isMagnetActive := false,
    playerX := 0, playerY := 0, playerZ := 0 }

/-- The spec scenario obstacle at `z = -2`, laterally aligned with the
player. -/
def scenarioObstacle : GameObject :=
  { type := ObjectType.OBSTACLE, x := 0, y := 4/5, z := -2,
    active := true, color := some "#ff0054" }

/-- Iterate `stepObject` over successive ticks on one entity,
accumulating the missiles it spawns; iteration stops when the entity is
dropped from the registry. -/
def runTicks : List TickConfig → GameObject → GameObject × List GameObject
  | [], o => (o, [])
  | c :: cs, o =>
    let r := stepObject c o
    if r.keep then
      let rest := runTicks cs r.obj
      (rest.1, r.newSpawns ++ rest.2)
    else (r.obj, r.newSpawns)

/-! ## Spawn planner (LevelManager.tsx lines 442-632) -/

/-- `GEMINI_COLORS` (types module). -/
def GEMINI_COLORS : List String :=
  ["#2979ff", "#ff1744", "#ffea00", "#2979ff", "#00e676", "#ff1744"]

/-- Read-only inputs of one spawn-planner invocation: store snapshot,
pacing counters, and the kept entity registry after the motion pass. -/
structure SpawnInput where
  mode : GameMode
  level : Int
  laneCount : Int
  collectedLetters : List Nat
  effectiveSpeed : ℚ
  distanceTraveled : ℚ
  nextLetterDistance : ℚ
  nextPortalDistance : ℚ
  keptObjects : List GameObject
  deriving Repr

/-- Oracle for the planner's `Math.random()` draws (each in `[0, 1)`)
and for the random lane shuffle. -/
structure SpawnRand where
  laneRoll : ℚ
  letterRoll : ℚ
  skipRoll : ℚ
  powerupRoll : ℚ
  powerupTypeRoll : ℚ
  obstacleRoll : ℚ
  alienGateRoll : ℚ
  alienCountRoll : ℚ
  spikeCountRoll : ℚ
  lanePerm : List Int
  topGemRolls : List ℚ
  deriving Repr

/-- `getRandomLane` (LevelManager.tsx lines 163-166) with the random
draw supplied as an oracle. -/
def getRandomLane (laneCount : Int) (roll : ℚ) : Int :=
  ⌊roll * ((⌊(laneCount : ℚ) / 2⌋ : ℚ) * 2 + 1)⌋ - ⌊(laneCount : ℚ) / 2⌋

/-- Lane indices `-maxLane .. maxLane` built by the obstacle branches. -/
def availableLanes (laneCount : Int) : List Int :=
  (List.range (2 * (⌊(laneCount : ℚ) / 2⌋).toNat + 1)).map
    (fun i => (i : Int) - ⌊(laneCount : ℚ) / 2⌋)

/-- The random in-place shuffle `availableLanes.sort(() =>
Math.random() - 0.5)` yields some permutation of the lane list; the
permutation is an oracle input, falling back to the unshuffled list
when the oracle is not a permutation of it. -/
def shuffledLanes (laneCount : Int) (perm : List Int) : List Int :=
  if perm.Perm (availableLanes laneCount) then perm
  else availableLanes laneCount

/-- The weighted power-up choice (lines 521-528). -/
def pickPowerUp (r : ℚ) : PowerUpKind :=
  if r < 26/100 then .SHIELD
  else if r < 50/100 then .MAGNET
  else if r < 70/100 then .SCORE_X2
  else if r < 86/100 then .SLOW
  else if r < 95/100 then .BOOST
  else .INVERT

/-- `colorByType` (lines 530-537). -/
def powerUpColor (p : PowerUpKind) : String :=
  match p with
  | .SHIELD => "#00ffff"
  | .MAGNET => "#b388ff"
  | .SLOW => "#2979ff"
  | .BOOST => "#ff1744"
  | .SCORE_X2 => "#ffea00"
  | .INVERT => "#ff00ff"

/-- Minimum longitudinal position among kept non-missile entities,
`-20` when there are none (lines 443-451). -/
def furthestZ (kept : List GameObject) : ℚ :=
  match (kept.filter (fun o => o.type != ObjectType.MISSILE)).map
      (fun o => o.z) with
  | [] => -20
  | z :: zs => zs.foldl min z

/-- Speed-scaled minimum gap, capped at 30 (lines 455-457). -/
def minGapFor (inp : SpawnInput) : ℚ :=
  min 30 ((if inp.mode = .ENDLESS then 13 else 14) +
    inp.effectiveSpeed * (if inp.mode = .ENDLESS then 22/100 else 26/100))

/-- The planner's spawn position (line 458): the gap-derived position,
never closer than the spawn horizon. -/
def spawnZFor (inp : SpawnInput) : ℚ :=
  min (furthestZ inp.keptObjects - minGapFor inp) (-SPAWN_DISTANCE)

/-- Endless-mode portal offer (lines 461-473): distance-scheduled,
one at a time, placed 35 units beyond the spawn position; reschedules
on each issuance. -/
def portalSpawns (inp : SpawnInput) (spawnZ : ℚ) : List GameObject × ℚ :=
  if inp.mode = .ENDLESS ∧ inp.distanceTraveled ≥ inp.nextPortalDistance ∧
      (inp.keptObjects.any fun o =>
        o.type == ObjectType.SHOP_PORTAL && o.active) = false then
    ([{ type := .SHOP_PORTAL, x := 0, y := 0, z := spawnZ - 35,
        active := true }],
     inp.nextPortalDistance + 520)
  else ([], inp.nextPortalDistance)

/-- The letter / skip / power-up / obstacle / gem decision tree
(lines 475-631); returns the spawned entities and the updated
next-letter-distance schedule. -/
def mainSpawns (inp : SpawnInput) (r : SpawnRand) (spawnZ : ℚ) :
    List GameObject × ℚ :=
  let lane := getRandomLane inp.laneCount r.laneRoll
  if inp.mode = .STORY ∧ inp.distanceTraveled ≥ inp.nextLetterDistance then
    let availableIndices := (List.range GEMINI_TARGET.length).filter
      (fun i => !(inp.collectedLetters.contains i))
    if 0 < availableIndices.length then
      let chosenIndex := availableIndices.getD
        (⌊r.letterRoll * (availableIndices.length : ℚ)⌋).toNat 0
      ([{ type := .LETTER, x := (lane : ℚ) * LANE_WIDTH, y := 1, z := spawnZ,
          active := true, color := some (GEMINI_COLORS.getD chosenIndex ""),
          targetIndex := some chosenIndex }],
       inp.nextLetterDistance + getLetterInterval inp.level)
    else
      ([{ type := .GEM, x := (lane : ℚ) * LANE_WIDTH, y := 6/5, z := spawnZ,
          active := true, color := some "#00ffff", points := some 50 }],
       inp.nextLetterDistance)
  else if r.skipRoll > 12/100 then
    if r.powerupRoll < (if inp.mode = .ENDLESS then 10/100 else 7/100) then
      ([{ type := .POWERUP, x := (lane : ℚ) * LANE_WIDTH, y := 6/5,
          z := spawnZ, active := true,
          powerUpType := some (pickPowerUp r.powerupTypeRoll),
          color := some (powerUpColor (pickPowerUp r.powerupTypeRoll)) }],
       inp.nextLetterDistance)
    else if r.obstacleRoll < (if inp.mode = .ENDLESS then 74/100 else 64/100) then
      if inp.level ≥ 2 ∧
          r.alienGateRoll < (if inp.mode = .ENDLESS then 16/100 else 12/100) then
        let lanes := shuffledLanes inp.laneCount r.lanePerm
        let alienCount :=
          if r.alienCountRoll > 82/100 then min 2 lanes.length else 1
        (((List.range alienCount).map fun k =>
            ({ type := .ALIEN, x := (lanes.getD k 0 : ℚ) * LANE_WIDTH,
               y := 3/2, z := spawnZ, active := true, color := some "#00ff00",
               hasFired := false } : GameObject)),
         inp.nextLetterDistance)
      else
        let lanes := shuffledLanes inp.laneCount r.lanePerm
        let countToSpawn :=
          if r.spikeCountRoll > 88/100 then min 3 lanes.length
          else if r.spikeCountRoll > 62/100 then min 2 lanes.length
          else 1
        ((((List.range countToSpawn).map fun i =>
            ({ type := .OBSTACLE, x := (lanes.getD i 0 : ℚ) * LANE_WIDTH,
               y := OBSTACLE_HEIGHT / 2, z := spawnZ, active := true,
               color := some "#ff0054" } : GameObject) ::
            (if r.topGemRolls.getD i 1 <
                (if inp.mode = .ENDLESS then 34/100 else 28/100) then
              [{ type := .GEM, x := (lanes.getD i 0 : ℚ) * LANE_WIDTH,
                 y := OBSTACLE_HEIGHT + 1, z := spawnZ, active := true,
                 color := some "#ffd700", points := some 100 }]
            else [])).flatten),
         inp.nextLetterDistance)
    else
      ([{ type := .GEM, x := (lane : ℚ) * LANE_WIDTH, y := 6/5, z := spawnZ,
          active := true, color := some "#00ffff", points := some 50 }],
       inp.nextLetterDistance)
  else ([], inp.nextLetterDistance)

/-- Result of one spawn-planner invocation. -/
structure SpawnResult where
  spawns : List GameObject
  nextLetterDistance : ℚ
  nextPortalDistance : ℚ
  deriving Repr

/-- One spawn-planner invocation (lines 442-632): spawning happens only
when the nearest kept non-missile entity is closer than the spawn
horizon; the portal offer runs before the main decision tree. -/
def spawnStep (inp : SpawnInput) (r : SpawnRand) : SpawnResult :=
  if furthestZ inp.keptObjects > -SPAWN_DISTANCE then
    { spawns := (portalSpawns inp (spawnZFor inp)).1 ++
        (mainSpawns inp r (spawnZFor inp)).1
      nextLetterDistance := (mainSpawns inp r (spawnZFor inp)).2
      nextPortalDistance := (portalSpawns inp (spawnZFor inp)).2 }
  else
    { spawns := []
      nextLetterDistance := inp.nextLetterDistance
      nextPortalDistance := inp.nextPortalDistance }

/-- Concrete Endless-mode planner input whose portal offer is due. -/
def c8Input : SpawnInput :=
  { mode := .ENDLESS, level := 4, laneCount := 3, collectedLetters := [],
    effectiveSpeed := 30, distanceTraveled := 1000, nextLetterDistance := 0,
    nextPortalDistance := 500,
    keptObjects := [{ type := ObjectType.OBSTACLE, x := 0, y := 4/5,
                      z := -50, active := true }] }

/-- Oracle draws that skip every optional spawn this opportunity. -/
def c8Rand : SpawnRand :=
  { laneRoll := 0, letterRoll := 0, skipRoll := 0, powerupRoll := 0,
    powerupTypeRoll := 0, obstacleRoll := 0, alienGateRoll := 0,
    alienCountRoll := 0, spikeCountRoll := 0, lanePerm := [],
    topGemRolls := [] }

/-- The shop portal the planner emits for `c8Input`. -/
def c8Portal : GameObject :=
  { type := ObjectType.SHOP_PORTAL, x := 0, y := 0,
    z := spawnZFor c8Input - 35, active := true }

/-- A planner input whose nearest kept entity is already beyond the
spawn horizon, so nothing may spawn. -/
def c8InputFar : SpawnInput :=
  { c8Input with
    keptObjects := [{ type := ObjectType.OBSTACLE, x := 0, y := 4/5,
                      z := -150, active := true }] }

end Runner

/-! ## Theorems -/

namespace Runner

/-- **C3.** With `lives = 1` and neither immortality nor a shield charge
active, `takeDamage` sets lives to 0, speed to 0, and status to
`GAME_OVER`; moreover `takeDamage` never makes a nonnegative life count
negative. -/
theorem c3_last_life_game_over (s : GameState)
    (h1 : s.lives = 1) (h2 : s.isImmortalityActive = false)
    (h3 : ¬ s.shieldCharges > 0) :
    ((takeDamage s).lives = 0 ∧ (takeDamage s).speed = 0 ∧
      (takeDamage s).status = GameStatus.GAME_OVER) ∧
    (∀ t : GameState, 0 ≤ t.lives → 0 ≤ (takeDamage t).lives) := by
  constructor
  · have h : takeDamage s =
        { s with lives := 0, status := GameStatus.GAME_OVER, speed := 0 } := by
      unfold takeDamage
      rw [if_neg (by simp [h2]), if_neg h3, if_neg (by omega)]
    rw [h]
    exact ⟨rfl, rfl, rfl⟩
  · intro t ht
    unfold takeDamage
    split_ifs with hA hB hC
    · exact ht
    · exact ht
    · show 0 ≤ t.lives - 1
      omega
    · show (0 : Int) ≤ 0
      norm_num

/-- Witness for C3 at the concrete state of the spec scenario. -/
theorem c3_last_life_game_over_witness :
    ((takeDamage { startGameState with lives := 1 }).lives = 0 ∧
      (takeDamage { startGameState with lives := 1 }).speed = 0 ∧
      (takeDamage { startGameState with lives := 1 }).status = GameStatus.GAME_OVER) ∧
    (∀ t : GameState, 0 ≤ t.lives → 0 ≤ (takeDamage t).lives) :=
  c3_last_life_game_over { startGameState with lives := 1 }
    (by decide) (by decide) (by decide)

/-- `collectLetter` in ENDLESS mode is a plain 250-point score pickup. -/
theorem collectLetterE_endless (s : GameState) (i : Nat)
    (hm : s.mode = GameMode.ENDLESS) :
    collectLetterE s i = (addScore s 250, none) := by
  unfold collectLetterE
  rw [if_pos hm]

/-- `collectLetter` on an already-collected index is a no-op. -/
theorem collectLetterE_member (s : GameState) (i : Nat)
    (hm : s.mode = GameMode.STORY) (hi : i ∈ s.collectedLetters) :
    collectLetterE s i = (s, none) := by
  unfold collectLetterE
  rw [if_neg (by simp [hm]), if_pos hi]

/-- `collectLetter` on a new index that does not complete the word
appends the index and adds 6% of base speed. -/
theorem collectLetterE_new (s : GameState) (i : Nat)
    (hm : s.mode = GameMode.STORY) (hi : i ∉ s.collectedLetters)
    (hlen : s.collectedLetters.length ≠ 5) :
    collectLetterE s i =
      ({ s with
         collectedLetters := s.collectedLetters ++ [i]
         speed := s.speed + RUN_SPEED_BASE * (6/100) }, none) := by
  unfold collectLetterE
  rw [if_neg (by simp [hm]), if_neg hi,
    if_neg (by simp [GEMINI_TARGET]; omega)]

/-- `collectLetter` completing the word below the level cap advances the
level. -/
theorem collectLetterE_complete_advance (s : GameState) (i : Nat)
    (hm : s.mode = GameMode.STORY) (hi : i ∉ s.collectedLetters)
    (hlen : s.collectedLetters.length = 5) (hlev : s.level < MAX_LEVEL) :
    collectLetterE s i =
      (advanceLevel
        { s with
          collectedLetters := s.collectedLetters ++ [i]
          speed := s.speed + RUN_SPEED_BASE * (6/100) },
       some LevelEvent.advance) := by
  unfold collectLetterE
  rw [if_neg (by simp [hm]), if_neg hi,
    if_pos (by simp [GEMINI_TARGET]; omega), if_pos hlev]

/-- `collectLetter` completing the word at the level cap switches to
ENDLESS mode with a 5000 score bonus. -/
theorem collectLetterE_complete_endless (s : GameState) (i : Nat)
    (hm : s.mode = GameMode.STORY) (hi : i ∉ s.collectedLetters)
    (hlen : s.collectedLetters.length = 5) (hlev : ¬ s.level < MAX_LEVEL) :
    collectLetterE s i =
      ({ s with
         mode := GameMode.ENDLESS
         status := GameStatus.PLAYING
         score := s.score + 5000
         collectedLetters := []
         speed := s.speed + RUN_SPEED_BASE * (6/100) }, some LevelEvent.endless) := by
  unfold collectLetterE
  rw [if_neg (by simp [hm]), if_neg hi,
    if_pos (by simp [GEMINI_TARGET]; omega), if_neg hlev]

/-- Collecting letter 3 on a fresh run, evaluated. -/
theorem collect_start_letter3_eq :
    collectLetter startGameState 3 =
      { startGameState with collectedLetters := [3], speed := 477/20 } := by
  unfold collectLetter
  rw [collectLetterE_new startGameState 3 rfl (by decide) (by decide)]
  norm_num [startGameState, RUN_SPEED_BASE]

/-- **C5 counterexample.** Collecting letter index 3 from a fresh run
leaves the collected set `[3]` but sets speed to `22.5 + 22.5 * 0.06 =
23.85`, not the claimed `24.75`: the live store adds 6% of base speed
per letter, not 10%. -/
theorem c5_counterexample :
    (collectLetter startGameState 3).collectedLetters = [3] ∧
    (collectLetter startGameState 3).speed ≠ 99/4 := by
  rw [collect_start_letter3_eq]
  refine ⟨rfl, ?_⟩
  show (477/20 : ℚ) ≠ 99/4
  norm_num

/-- **C5 (amended).** Starting a fresh run (status=Playing, mode=Story,
speed=22.5, lives=6, level=1, laneCount=3) and collecting letter index 3
once yields collected letters `[3]`, speed `22.5 + 1.35 = 23.85`, and
status still Playing. -/
theorem c5_letter_scenario :
    (collectLetter startGameState 3).collectedLetters = [3] ∧
    (collectLetter startGameState 3).speed = 477/20 ∧
    (collectLetter startGameState 3).status = GameStatus.PLAYING := by
  rw [collect_start_letter3_eq]
  exact ⟨rfl, rfl, rfl⟩

/-- **C6.** For every level `N ≥ 1` the scheduled letter interval equals
the level-1 interval (150) scaled by `1.5 ^ (N - 1)`. -/
theorem c6_letter_interval_geometric (N : Int) (h : 1 ≤ N) :
    getLetterInterval N = getLetterInterval 1 * (3/2 : ℚ) ^ (N - 1).toNat ∧
    getLetterInterval 1 = 150 := by
  have h1 : getLetterInterval 1 = 150 := by
    unfold getLetterInterval BASE_LETTER_INTERVAL
    norm_num
  refine ⟨?_, h1⟩
  rw [h1]
  unfold getLetterInterval BASE_LETTER_INTERVAL
  have hmax : max 0 (N - 1) = N - 1 := by omega
  rw [hmax]

/-- Witness for C6 at `N = 3`. -/
theorem c6_letter_interval_geometric_witness :
    getLetterInterval 3 = getLetterInterval 1 * (3/2 : ℚ) ^ ((3 : Int) - 1).toNat ∧
    getLetterInterval 1 = 150 :=
  c6_letter_interval_geometric 3 (by norm_num)

/-- **C7.** `buyItem` preserves `lives ≤ maxLives` and `maxLives ≤ 6`,
and a `MAX_LIFE` purchase with `maxLives` already at 6 returns `false`
and leaves the state unchanged. -/
theorem c7_lives_capped (s : GameState) (ty : ItemType) (cost : Int)
    (h1 : s.lives ≤ s.maxLives) (h2 : s.maxLives ≤ 6) :
    ((buyItem s ty cost).2.lives ≤ (buyItem s ty cost).2.maxLives ∧
      (buyItem s ty cost).2.maxLives ≤ 6) ∧
    (s.maxLives = 6 → buyItem s ItemType.MAX_LIFE cost = (false, s)) := by
  constructor
  · cases ty <;> unfold buyItem <;> split_ifs <;> simp_all
  · intro h6
    unfold buyItem
    rw [if_pos ⟨rfl, by omega⟩]

/-- Witness for C7: healing at full health from the fresh-run state. -/
theorem c7_lives_capped_witness :
    ((buyItem startGameState ItemType.HEAL 0).2.lives ≤
        (buyItem startGameState ItemType.HEAL 0).2.maxLives ∧
      (buyItem startGameState ItemType.HEAL 0).2.maxLives ≤ 6) ∧
    (startGameState.maxLives = 6 →
      buyItem startGameState ItemType.MAX_LIFE 0 = (false, startGameState)) :=
  c7_lives_capped startGameState ItemType.HEAL 0 (by decide) (by decide)

/-- **C10.** With sufficient score, `DOUBLE_JUMP` and `IMMORTAL`
purchases always succeed and deduct the cost (even when already owned,
since no ownership guard exists); every non-`MAX_LIFE` purchase with
sufficient score succeeds; and `MAX_LIFE` at the cap of 6 fails without
deducting score. -/
theorem c10_buy_cap_semantics (s : GameState) (cost : Int)
    (h : cost ≤ s.score) :
    ((buyItem s ItemType.DOUBLE_JUMP cost).1 = true ∧
      (buyItem s ItemType.DOUBLE_JUMP cost).2.score = s.score - cost ∧
      (buyItem s ItemType.DOUBLE_JUMP cost).2.hasDoubleJump = true) ∧
    ((buyItem s ItemType.IMMORTAL cost).1 = true ∧
      (buyItem s ItemType.IMMORTAL cost).2.score = s.score - cost ∧
      (buyItem s ItemType.IMMORTAL cost).2.hasImmortality = true) ∧
    (∀ ty : ItemType, ty ≠ ItemType.MAX_LIFE → (buyItem s ty cost).1 = true) ∧
    (s.maxLives ≥ 6 → buyItem s ItemType.MAX_LIFE cost = (false, s)) := by
  refine ⟨?_, ?_, ?_, ?_⟩
  · unfold buyItem
    simp [ge_iff_le, h]
  · unfold buyItem
    simp [ge_iff_le, h]
  · intro ty hty
    cases ty <;> simp_all [buyItem, ge_iff_le, h]
  · intro h6
    unfold buyItem
    rw [if_pos ⟨rfl, h6⟩]

/-- Witness for C10: a fresh run with a free item. -/
theorem c10_buy_cap_semantics_witness :
    ((buyItem startGameState ItemType.DOUBLE_JUMP 0).1 = true ∧
      (buyItem startGameState ItemType.DOUBLE_JUMP 0).2.score =
        startGameState.score - 0 ∧
      (buyItem startGameState ItemType.DOUBLE_JUMP 0).2.hasDoubleJump = true) ∧
    ((buyItem startGameState ItemType.IMMORTAL 0).1 = true ∧
      (buyItem startGameState ItemType.IMMORTAL 0).2.score =
        startGameState.score - 0 ∧
      (buyItem startGameState ItemType.IMMORTAL 0).2.hasImmortality = true) ∧
    (∀ ty : ItemType, ty ≠ ItemType.MAX_LIFE →
      (buyItem startGameState ty 0).1 = true) ∧
    (startGameState.maxLives ≥ 6 →
      buyItem startGameState ItemType.MAX_LIFE 0 = (false, startGameState)) :=
  c10_buy_cap_semantics startGameState 0 (by decide)

/-- **C4 counterexample.** When the first `collectLetter` call completes
the word (state `nearWordState`, index 3), the set resets and the second
call with the same index changes the set again and adds speed again:
double collection is not a no-op in that case. -/
theorem c4_counterexample :
    (collectLetter (collectLetter nearWordState 3) 3).collectedLetters ≠
      (collectLetter nearWordState 3).collectedLetters ∧
    (collectLetter (collectLetter nearWordState 3) 3).speed ≠
      (collectLetter nearWordState 3).speed := by
  have h1 : collectLetter nearWordState 3 =
      { nearWordState with
        collectedLetters := []
        level := 2
        laneCount := 5
        speed := 1179/40 } := by
    unfold collectLetter
    rw [collectLetterE_complete_advance nearWordState 3 rfl (by decide)
      (by decide) (by decide)]
    unfold advanceLevel
    norm_num [nearWordState, startGameState, RUN_SPEED_BASE]
  have h2 : collectLetter (collectLetter nearWordState 3) 3 =
      { nearWordState with
        collectedLetters := [3]
        level := 2
        laneCount := 5
        speed := 1233/40 } := by
    rw [h1]
    unfold collectLetter
    rw [collectLetterE_new _ 3 rfl (by decide) (by decide)]
    norm_num [nearWordState, startGameState, RUN_SPEED_BASE]
  rw [h2, h1]
  constructor
  · simp
  · show (1233/40 : ℚ) ≠ 1179/40
    norm_num

/-- **C4 (amended).** In Story mode, provided the first call does not
complete the 6-letter word (it is not the case that `i` is new and the
set already has 5 elements), `collectLetter` is idempotent: the second
call with the same index leaves the whole state unchanged, so the set
changes at most once and score/speed effects occur only on the first
call. -/
theorem c4_collect_idempotent (s : GameState) (i : Nat)
    (hm : s.mode = GameMode.STORY)
    (hnc : ¬ (i ∉ s.collectedLetters ∧ s.collectedLetters.length = 5)) :
    collectLetter (collectLetter s i) i = collectLetter s i := by
  by_cases hi : i ∈ s.collectedLetters
  · have h1 : collectLetter s i = s := by
      unfold collectLetter
      rw [collectLetterE_member s i hm hi]
    rw [h1, h1]
  · have hlen : s.collectedLetters.length ≠ 5 := by
      intro hx; exact hnc ⟨hi, hx⟩
    have h1 : collectLetter s i =
        { s with
          collectedLetters := s.collectedLetters ++ [i]
          speed := s.speed + RUN_SPEED_BASE * (6/100) } := by
      unfold collectLetter
      rw [collectLetterE_new s i hm hi hlen]
    rw [h1]
    unfold collectLetter
    rw [collectLetterE_member _ i (by simp [hm]) (by simp)]

/-- Witness for C4 on a fresh run and letter 3. -/
theorem c4_collect_idempotent_witness :
    collectLetter (collectLetter startGameState 3) 3 =
      collectLetter startGameState 3 :=
  c4_collect_idempotent startGameState 3 (by decide) (by decide)

/-- In ENDLESS mode, letter collections never perform a level
transition: the counters are untouched. -/
theorem collectFold_endless (l : List Nat) : ∀ (s : GameState) (a e : Nat),
    s.mode = GameMode.ENDLESS →
    (l.foldl collectStep (s, a, e)).2 = (a, e) := by
  induction l with
  | nil => intro s a e _; rfl
  | cons i l ih =>
    intro s a e hm
    have hstep : collectStep (s, a, e) i = (addScore s 250, a, e) := by
      simp only [collectStep]
      rw [collectLetterE_endless s i hm]
    rw [List.foldl_cons, hstep]
    exact ih (addScore s 250) a e hm

/-- In STORY mode, while the collected set together with the remaining
letters stays short of the 6-letter word, no level transition occurs. -/
theorem collectFold_story_short (l : List Nat) : ∀ (s : GameState) (a e : Nat),
    s.mode = GameMode.STORY →
    s.collectedLetters.length + l.length ≤ 5 →
    (l.foldl collectStep (s, a, e)).2 = (a, e) := by
  induction l with
  | nil => intro s a e _ _; rfl
  | cons i l ih =>
    intro s a e hm hlen
    simp only [List.length_cons] at hlen
    by_cases hi : i ∈ s.collectedLetters
    · have hstep : collectStep (s, a, e) i = (s, a, e) := by
        simp only [collectStep]
        rw [collectLetterE_member s i hm hi]
      rw [List.foldl_cons, hstep]
      exact ih s a e hm (by omega)
    · have h5 : s.collectedLetters.length ≠ 5 := by omega
      have hstep : collectStep (s, a, e) i =
          ({ s with
             collectedLetters := s.collectedLetters ++ [i]
             speed := s.speed + RUN_SPEED_BASE * (6/100) }, a, e) := by
        simp only [collectStep]
        rw [collectLetterE_new s i hm hi h5]
      rw [List.foldl_cons, hstep]
      exact ih _ a e hm (by simp; omega)

/-- Core induction for C2: in STORY mode, from a valid partial word,
collecting a remaining sequence that covers all six indices performs
exactly one transition — an advance below the level cap, an endless
switch at the cap. -/
theorem collectFold_main (l : List Nat) : ∀ (s : GameState) (a e : Nat),
    s.mode = GameMode.STORY →
    s.collectedLetters.Nodup →
    (∀ x ∈ s.collectedLetters, x < 6) →
    s.collectedLetters.length < 6 →
    l.Nodup →
    (∀ x ∈ l, x < 6) →
    (∀ x, x < 6 → x ∈ s.collectedLetters ∨ x ∈ l) →
    (l.foldl collectStep (s, a, e)).2 =
      if s.level < MAX_LEVEL then (a + 1, e) else (a, e + 1) := by
  induction l with
  | nil =>
    intro s a e hm hnd hrange hlen hlnd hlrange hcover
    exfalso
    have hsub : List.range 6 ⊆ s.collectedLetters := by
      intro x hx
      rcases hcover x (List.mem_range.mp hx) with h | h
      · exact h
      · cases h
    have := (List.subperm_of_subset (List.nodup_range 6) hsub).length_le
    simp only [List.length_range] at this
    omega
  | cons i l ih =>
    intro s a e hm hnd hrange hlen hlnd hlrange hcover
    have hlrange' : ∀ x ∈ l, x < 6 := fun x hx => hlrange x (List.mem_cons_of_mem i hx)
    have hi6 : i < 6 := hlrange i (List.mem_cons_self i l)
    by_cases hi : i ∈ s.collectedLetters
    · have hstep : collectStep (s, a, e) i = (s, a, e) := by
        simp only [collectStep]
        rw [collectLetterE_member s i hm hi]
      rw [List.foldl_cons, hstep]
      refine ih s a e hm hnd hrange hlen hlnd.of_cons hlrange' ?_
      intro x hx
      rcases hcover x hx with h | h
      · exact Or.inl h
      · rcases List.mem_cons.mp h with rfl | h
        · exact Or.inl hi
        · exact Or.inr h
    · have hlength6 : l.length ≤ 5 := by
        have hsub : i :: l ⊆ List.range 6 := by
          intro x hx
          exact List.mem_range.mpr (hlrange x hx)
        have := (List.subperm_of_subset hlnd hsub).length_le
        simp only [List.length_range, List.length_cons] at this
        omega
      by_cases h5 : s.collectedLetters.length = 5
      · -- this collection completes the word
        by_cases hlev : s.level < MAX_LEVEL
        · have hstep : collectStep (s, a, e) i =
              (advanceLevel
                { s with
                  collectedLetters := s.collectedLetters ++ [i]
                  speed := s.speed + RUN_SPEED_BASE * (6/100) }, a + 1, e) := by
            simp only [collectStep]
            rw [collectLetterE_complete_advance s i hm hi h5 hlev]
          rw [List.foldl_cons, hstep, if_pos hlev]
          refine collectFold_story_short l _ (a + 1) e hm ?_
          show List.length ([] : List Nat) + l.length ≤ 5
          simpa using hlength6
        · have hstep : collectStep (s, a, e) i =
              ({ s with
                 mode := GameMode.ENDLESS
                 status := GameStatus.PLAYING
                 score := s.score + 5000
                 collectedLetters := []
                 speed := s.speed + RUN_SPEED_BASE * (6/100) }, a, e + 1) := by
            simp only [collectStep]
            rw [collectLetterE_complete_endless s i hm hi h5 hlev]
          rw [List.foldl_cons, hstep, if_neg hlev]
          exact collectFold_endless l _ a (e + 1) rfl
      · -- the word is still incomplete afterwards
        have hstep : collectStep (s, a, e) i =
            ({ s with
               collectedLetters := s.collectedLetters ++ [i]
               speed := s.speed + RUN_SPEED_BASE * (6/100) }, a, e) := by
          simp only [collectStep]
          rw [collectLetterE_new s i hm hi h5]
        rw [List.foldl_cons, hstep]
        refine ih _ a e hm ?_ ?_ ?_ hlnd.of_cons hlrange' ?_
        · simpa [List.nodup_append] using ⟨hnd, fun hx => hi hx⟩
        · intro x hx
          rcases List.mem_append.mp hx with h | h
          · exact hrange x h
          · simp at h
            omega
        · simp
          omega
        · intro x hx
          rcases hcover x hx with h | h
          · exact Or.inl (List.mem_append.mpr (Or.inl h))
          · rcases List.mem_cons.mp h with rfl | h
            · exact Or.inl (by simp)
            · exact Or.inr h

/-- **C2.** In Story mode, from any valid state whose collected-letter
set has fewer than 6 elements, collecting all 6 distinct letter indices
in any order triggers exactly one advance-level transition when
`level < 3`, exactly one endless transition when `level = 3` (and in
general when `level ≥ 3`), never both and never twice. -/
theorem c2_word_completion (s : GameState) (perm : List Nat)
    (hm : s.mode = GameMode.STORY)
    (hnd : s.collectedLetters.Nodup)
    (hrange : ∀ x ∈ s.collectedLetters, x < 6)
    (hlen : s.collectedLetters.length < 6)
    (hperm : perm.Perm [0, 1, 2, 3, 4, 5]) :
    (collectRun s perm).2 =
      if s.level < MAX_LEVEL then (1, 0) else (0, 1) := by
  unfold collectRun
  have hlnd : perm.Nodup := hperm.nodup_iff.mpr (by decide)
  have hlrange : ∀ x ∈ perm, x < 6 := by
    intro x hx
    have hx' := hperm.mem_iff.mp hx
    simp at hx'
    omega
  have hcover : ∀ x, x < 6 → x ∈ s.collectedLetters ∨ x ∈ perm := by
    intro x hx
    refine Or.inr (hperm.mem_iff.mpr ?_)
    interval_cases x <;> simp
  have h := collectFold_main perm s 0 0 hm hnd hrange hlen hlnd hlrange hcover
  simpa using h

/-- The magnet pull changes no field of an entity other than `x`:
type is preserved. -/
theorem afterMagnet_type (c : TickConfig) (o : GameObject) :
    (afterMagnet c o).type = o.type := by
  unfold afterMagnet
  split <;> rfl

/-- The magnet pull preserves the active flag. -/
theorem afterMagnet_active (c : TickConfig) (o : GameObject) :
    (afterMagnet c o).active = o.active := by
  unfold afterMagnet
  split <;> rfl

/-- The magnet pull preserves the longitudinal position. -/
theorem afterMagnet_z (c : TickConfig) (o : GameObject) :
    (afterMagnet c o).z = o.z := by
  unfold afterMagnet
  split <;> rfl

/-- The magnet pull preserves the one-shot flag. -/
theorem afterMagnet_hasFired (c : TickConfig) (o : GameObject) :
    (afterMagnet c o).hasFired = o.hasFired := by
  unfold afterMagnet
  split <;> rfl

/-- Damage sources are not pickups, so the magnet never moves them. -/
theorem afterMagnet_not_pickup (c : TickConfig) (o : GameObject)
    (h : isDamageSource o.type = true) : afterMagnet c o = o := by
  have hnc : ¬ (c.isMagnetActive = true ∧ o.active = true ∧
      (o.type = ObjectType.GEM ∨ o.type = ObjectType.LETTER ∨
        o.type = ObjectType.POWERUP) ∧
      |o.z - c.playerZ| < 28) := by
    rintro ⟨-, -, ht, -⟩
    rcases ht with h' | h' | h' <;> rw [h'] at h <;> simp [isDamageSource] at h
  unfold afterMagnet
  rw [if_neg hnc]

/-- The alien-fire condition, phrased on the pre-tick entity. -/
theorem alienFires_after (c : TickConfig) (o : GameObject) :
    alienFires (afterMagnet c (afterMove c o)) ↔
      (o.type = ObjectType.ALIEN ∧ o.active = true ∧
        o.hasFired = false ∧ o.z + moveAmountFor c o > -90) := by
  unfold alienFires
  rw [afterMagnet_type, afterMagnet_active, afterMagnet_hasFired, afterMagnet_z]
  exact Iff.rfl

/-- For a damage source the alien-fire block leaves everything but the
one-shot flag unchanged. -/
theorem afterFire_damage_cases (c : TickConfig) (o : GameObject)
    (h : isDamageSource o.type = true) :
    afterFire c o = afterMove c o ∨
      afterFire c o = { afterMove c o with hasFired := true } := by
  have hmag : afterMagnet c (afterMove c o) = afterMove c o :=
    afterMagnet_not_pickup c (afterMove c o) h
  unfold afterFire
  rw [hmag]
  split
  · exact Or.inr rfl
  · exact Or.inl rfl

/-- Collision resolution never changes an entity's type. -/
theorem interactStep_fst_type (c : TickConfig) (p : ℚ) (o : GameObject) :
    (interactStep c p o).1.type = o.type := by
  unfold interactStep
  split_ifs <;> rfl

/-- Collision resolution never changes the one-shot flag. -/
theorem interactStep_fst_hasFired (c : TickConfig) (p : ℚ) (o : GameObject) :
    (interactStep c p o).1.hasFired = o.hasFired := by
  unfold interactStep
  split_ifs <;> rfl

/-- The damage path of collision resolution: an active damage source
inside the swept zone, within the 0.9 lateral threshold, with vertical
overlap, emits one player-hit (plus a burst for missiles) and is
deactivated. -/
theorem interactStep_damage_hit (c : TickConfig) (prevZ : ℚ) (o : GameObject)
    (hact : o.active = true) (hdmg : isDamageSource o.type = true)
    (hpre : prevZ < c.playerZ + 2) (hpost : o.z > c.playerZ - 2)
    (hdx : |o.x - c.playerX| < 9/10)
    (hvb : c.playerY < damageTop o) (hvt : c.playerY + 9/5 > damageBottom o) :
    interactStep c prevZ o =
      ({ o with active := false },
       GameEvent.playerHit ::
         (if o.type = ObjectType.MISSILE then
            [GameEvent.particleBurst o.x o.y o.z "#ff4400"] else []),
       true) := by
  have hnp : ¬ o.type = ObjectType.SHOP_PORTAL := by
    intro hx
    rw [hx] at hdmg
    simp [isDamageSource] at hdmg
  unfold interactStep
  rw [if_pos hact, if_neg hnp, if_pos ⟨hpre, hpost⟩, if_pos hdmg, if_pos hdx,
    if_pos hdmg, if_pos ⟨hvb, hvt⟩]

/-- **C1.** In any tick, an active damage-source entity (obstacle,
alien, missile) whose pre-move longitudinal position is below
`playerZ + 2` and whose post-move position is above `playerZ - 2`
(the swept straddle), whose lateral distance to the player is below
0.9, and whose type-specific vertical extent overlaps the player's
body extent, yields exactly one player-hit signal and is deactivated. -/
theorem c1_swept_damage_hit (c : TickConfig) (o : GameObject)
    (hact : o.active = true)
    (hdmg : isDamageSource o.type = true)
    (hpre : o.z < c.playerZ + 2)
    (hpost : o.z + moveAmountFor c o > c.playerZ - 2)
    (hdx : |o.x - c.playerX| < 9/10)
    (hvb : c.playerY < damageTop o)
    (hvt : c.playerY + 9/5 > damageBottom o) :
    (stepObject c o).events.count GameEvent.playerHit = 1 ∧
    (stepObject c o).obj.active = false := by
  have hfe : (fireEvents c o).count GameEvent.playerHit = 0 := by
    unfold fireEvents
    split <;> rfl
  have hev : (stepObject c o).events =
      fireEvents c o ++ (interactStep c o.z (afterFire c o)).2.1 := rfl
  have hobj : (stepObject c o).obj =
      (interactStep c o.z (afterFire c o)).1 := rfl
  rcases afterFire_damage_cases c o hdmg with hf | hf
  · rw [hev, hobj, hf,
      interactStep_damage_hit c o.z (afterMove c o)
        hact hdmg hpre hpost hdx hvb hvt]
    refine ⟨?_, rfl⟩
    simp [hfe]
    split <;> rfl
  · rw [hev, hobj, hf,
      interactStep_damage_hit c o.z { afterMove c o with hasFired := true }
        hact hdmg hpre hpost hdx hvb hvt]
    refine ⟨?_, rfl⟩
    simp [hfe]
    split <;> rfl

/-- Witness for C1: the spec's concrete scenario — an obstacle at
`z = -2` moving to `z = 0.5` in one tick with the player at the
origin. -/
theorem c1_swept_damage_hit_witness :
    (stepObject scenarioTick scenarioObstacle).events.count
        GameEvent.playerHit = 1 ∧
    (stepObject scenarioTick scenarioObstacle).obj.active = false :=
  c1_swept_damage_hit scenarioTick scenarioObstacle rfl rfl
    (by norm_num [scenarioTick, scenarioObstacle])
    (by rw [show moveAmountFor scenarioTick scenarioObstacle = 5/2 from rfl]
        norm_num [scenarioTick, scenarioObstacle])
    (by norm_num [scenarioTick, scenarioObstacle])
    (by rw [show damageTop scenarioObstacle = OBSTACLE_HEIGHT from rfl]
        norm_num [scenarioTick, OBSTACLE_HEIGHT])
    (by rw [show damageBottom scenarioObstacle = 0 from rfl]
        norm_num [scenarioTick])

/-- Processing a tick never changes an entity's type tag. -/
theorem stepObject_obj_type (c : TickConfig) (o : GameObject) :
    (stepObject c o).obj.type = o.type := by
  show (interactStep c o.z (afterFire c o)).1.type = o.type
  rw [interactStep_fst_type]
  unfold afterFire
  split
  · show (afterMagnet c (afterMove c o)).type = o.type
    rw [afterMagnet_type]
    rfl
  · rw [afterMagnet_type]
    rfl

/-- The one-shot flag after a tick: set exactly when the alien-fire
condition held, otherwise unchanged. -/
theorem stepObject_obj_hasFired (c : TickConfig) (o : GameObject) :
    (stepObject c o).obj.hasFired =
      (if o.type = ObjectType.ALIEN ∧ o.active = true ∧
          o.hasFired = false ∧ o.z + moveAmountFor c o > -90 then true
       else o.hasFired) := by
  show (interactStep c o.z (afterFire c o)).1.hasFired = _
  rw [interactStep_fst_hasFired]
  unfold afterFire
  by_cases hcond : alienFires (afterMagnet c (afterMove c o))
  · rw [if_pos hcond, if_pos ((alienFires_after c o).mp hcond)]
  · rw [if_neg hcond,
      if_neg (fun hx => hcond ((alienFires_after c o).mpr hx)),
      afterMagnet_hasFired]
    rfl

/-- The spawns of a tick: exactly one missile when the alien-fire
condition held, nothing otherwise. -/
theorem stepObject_newSpawns (c : TickConfig) (o : GameObject) :
    (stepObject c o).newSpawns =
      (if o.type = ObjectType.ALIEN ∧ o.active = true ∧
          o.hasFired = false ∧ o.z + moveAmountFor c o > -90 then
        [{ type := ObjectType.MISSILE, x := o.x, y := 1,
           z := o.z + moveAmountFor c o + 2, active := true,
           color := some "#ff0000" }]
       else []) := by
  show fireSpawns c o = _
  unfold fireSpawns
  by_cases hcond : alienFires (afterMagnet c (afterMove c o))
  · have hc' := (alienFires_after c o).mp hcond
    have hmag : afterMagnet c (afterMove c o) = afterMove c o := by
      refine afterMagnet_not_pickup c (afterMove c o) ?_
      show isDamageSource (afterMove c o).type = true
      have ht : (afterMove c o).type = ObjectType.ALIEN := hc'.1
      rw [ht]
      rfl
    rw [if_pos hcond, if_pos hc', hmag]
    rfl
  · rw [if_neg hcond,
      if_neg (fun hx => hcond ((alienFires_after c o).mpr hx))]

/-- Over any run of ticks an alien spawns at most one missile, and none
at all once its one-shot flag is set. -/
theorem runTicks_alien_bound (cfgs : List TickConfig) : ∀ o : GameObject,
    o.type = ObjectType.ALIEN →
    ((runTicks cfgs o).2.length ≤ 1 ∧
      (o.hasFired = true → (runTicks cfgs o).2.length = 0)) := by
  induction cfgs with
  | nil =>
    intro o _
    exact ⟨by simp [runTicks], fun _ => by simp [runTicks]⟩
  | cons c cs ih =>
    intro o h
    have htype := stepObject_obj_type c o
    have hspawn := stepObject_newSpawns c o
    have hfired := stepObject_obj_hasFired c o
    have hrest := ih (stepObject c o).obj (htype.trans h)
    by_cases hcond : (o.type = ObjectType.ALIEN ∧ o.active = true ∧
        o.hasFired = false ∧ o.z + moveAmountFor c o > -90)
    · rw [if_pos hcond] at hspawn hfired
      have h0 : (runTicks cs (stepObject c o).obj).2.length = 0 :=
        hrest.2 hfired
      constructor
      · simp only [runTicks]
        split
        · simp [hspawn, h0]
        · simp [hspawn]
      · intro hf
        rw [hf] at hcond
        simp at hcond
    · rw [if_neg hcond] at hspawn hfired
      constructor
      · simp only [runTicks]
        split
        · simpa [hspawn] using hrest.1
        · simp [hspawn]
      · intro hf
        simp only [runTicks]
        split
        · simpa [hspawn] using hrest.2 (hfired.trans hf)
        · simp [hspawn]

/-- **C9.** An alien fires at most once.  When active with a clear
one-shot flag and advanced past the `-90` threshold, a tick spawns
exactly one missile slightly ahead of it and sets the flag; with the
flag set a tick spawns nothing and keeps the flag; and over any
sequence of ticks at most one missile is ever spawned. -/
theorem c9_alien_fires_once (o : GameObject)
    (h : o.type = ObjectType.ALIEN) :
    (∀ c : TickConfig, o.active = true → o.hasFired = false →
        o.z + c.dist > -90 →
        (stepObject c o).newSpawns =
          [{ type := ObjectType.MISSILE, x := o.x, y := 1,
             z := o.z + c.dist + 2, active := true,
             color := some "#ff0000" }] ∧
        (stepObject c o).obj.hasFired = true) ∧
    (∀ c : TickConfig, o.hasFired = true →
        (stepObject c o).newSpawns = [] ∧
        (stepObject c o).obj.hasFired = true) ∧
    (∀ cfgs : List TickConfig, (runTicks cfgs o).2.length ≤ 1) := by
  refine ⟨?_, ?_, ?_⟩
  · intro c hact hf hz
    have hmove : moveAmountFor c o = c.dist := by
      unfold moveAmountFor
      rw [if_neg (by simp [h])]
    have hspawn := stepObject_newSpawns c o
    have hfired := stepObject_obj_hasFired c o
    rw [if_pos ⟨h, hact, hf, by rw [hmove]; exact hz⟩] at hspawn hfired
    rw [hmove] at hspawn
    exact ⟨hspawn, hfired⟩
  · intro c hf
    have hspawn := stepObject_newSpawns c o
    have hfired := stepObject_obj_hasFired c o
    rw [if_neg (by simp [hf])] at hspawn hfired
    exact ⟨hspawn, hfired.trans hf⟩
  · intro cfgs
    exact (runTicks_alien_bound cfgs o h).1

/-- Witness for C9: an active alien at `z = -80` fires this tick. -/
theorem c9_alien_fires_once_witness :
    (stepObject scenarioTick
        { type := ObjectType.ALIEN, x := 0, y := 3/2, z := -80,
          active := true, color := some "#00ff00" }).newSpawns =
      [{ type := ObjectType.MISSILE, x := 0, y := 1,
         z := (-80 : ℚ) + scenarioTick.dist + 2, active := true,
         color := some "#ff0000" }] ∧
    (stepObject scenarioTick
        { type := ObjectType.ALIEN, x := 0, y := 3/2, z := -80,
          active := true, color := some "#00ff00" }).obj.hasFired = true :=
  (c9_alien_fires_once
      { type := ObjectType.ALIEN, x := 0, y := 3/2, z := -80,
        active := true, color := some "#00ff00" } rfl).1
    scenarioTick rfl rfl (by norm_num [scenarioTick])

/-- Witness for C2: a fresh level-1 run and the identity order. -/
theorem c2_word_completion_witness :
    (collectRun startGameState [0, 1, 2, 3, 4, 5]).2 =
      if startGameState.level < MAX_LEVEL then (1, 0) else (0, 1) :=
  c2_word_completion startGameState [0, 1, 2, 3, 4, 5] rfl (by decide)
    (by decide) (by decide) (List.Perm.refl _)

/-- Every portal the planner offers sits 35 units beyond the spawn
position. -/
theorem portalSpawns_mem (inp : SpawnInput) (z : ℚ) (o : GameObject)
    (h : o ∈ (portalSpawns inp z).1) :
    o.type = ObjectType.SHOP_PORTAL ∧ o.z = z - 35 := by
  unfold portalSpawns at h
  split at h
  · simp at h
    subst h
    exact ⟨rfl, rfl⟩
  · simp at h

/-- Every entity of the planner's main decision tree is placed exactly
at the spawn position and is never a portal. -/
theorem mainSpawns_mem (inp : SpawnInput) (r : SpawnRand) (z : ℚ)
    (o : GameObject) (h : o ∈ (mainSpawns inp r z).1) :
    o.type ≠ ObjectType.SHOP_PORTAL ∧ o.z = z := by
  simp only [mainSpawns] at h
  split_ifs at h <;>
    simp only [List.mem_singleton, List.mem_map, List.mem_flatten,
      List.mem_range, List.not_mem_nil] at h
  all_goals
    first
      | exact h.elim
      | (subst h
         exact ⟨fun hx => ObjectType.noConfusion hx, rfl⟩)
      | (rcases h with ⟨k, -, rfl⟩
         exact ⟨fun hx => ObjectType.noConfusion hx, rfl⟩)
      | (rcases h with ⟨l, ⟨i, -, rfl⟩, hol⟩
         rcases List.mem_cons.mp hol with rfl | hgem
         · exact ⟨fun hx => ObjectType.noConfusion hx, rfl⟩
         · split at hgem
           · rw [List.mem_singleton] at hgem
             subst hgem
             exact ⟨fun hx => ObjectType.noConfusion hx, rfl⟩
           · exact absurd hgem (List.not_mem_nil _))

/-- **C8 (amended).** The planner creates entities only when the
minimum longitudinal position among kept non-missile entities is
closer than the spawn horizon; every entity it creates except the
Endless-mode shop portal is placed exactly at the spawn position
`min (nearest − speed-scaled gap capped at 30, −SPAWN_DISTANCE)`, the
portal is placed 35 units beyond it, and hence no planner-spawned
entity ever appears closer than the spawn horizon. -/
theorem c8_spawn_positions (inp : SpawnInput) (r : SpawnRand) :
    (¬ furthestZ inp.keptObjects > -SPAWN_DISTANCE →
      (spawnStep inp r).spawns = []) ∧
    (∀ o ∈ (spawnStep inp r).spawns,
      (o.type ≠ ObjectType.SHOP_PORTAL → o.z = spawnZFor inp) ∧
      (o.type = ObjectType.SHOP_PORTAL → o.z = spawnZFor inp - 35) ∧
      o.z ≤ -SPAWN_DISTANCE) := by
  constructor
  · intro hng
    unfold spawnStep
    rw [if_neg hng]
  · intro o ho
    by_cases hg : furthestZ inp.keptObjects > -SPAWN_DISTANCE
    · have ho' : o ∈ (portalSpawns inp (spawnZFor inp)).1 ++
          (mainSpawns inp r (spawnZFor inp)).1 := by
        have hs : (spawnStep inp r).spawns =
            (portalSpawns inp (spawnZFor inp)).1 ++
              (mainSpawns inp r (spawnZFor inp)).1 := by
          unfold spawnStep
          rw [if_pos hg]
        rw [hs] at ho
        exact ho
      have hz : spawnZFor inp ≤ -SPAWN_DISTANCE := min_le_right _ _
      rcases List.mem_append.mp ho' with hp | hm
      · obtain ⟨ht, hzz⟩ := portalSpawns_mem inp _ o hp
        refine ⟨fun hx => absurd ht hx, fun _ => hzz, ?_⟩
        rw [hzz]
        linarith
      · obtain ⟨ht, hzz⟩ := mainSpawns_mem inp r _ o hm
        refine ⟨fun _ => hzz, fun hx => absurd hx ht, ?_⟩
        rw [hzz]
        exact hz
    · have hs : (spawnStep inp r).spawns = [] := by
        unfold spawnStep
        rw [if_neg hg]
      rw [hs] at ho
      simp at ho

/-- Witness for C8: with the nearest entity already past the horizon
the planner spawns nothing. -/
theorem c8_spawn_positions_witness :
    (spawnStep c8InputFar c8Rand).spawns = [] :=
  (c8_spawn_positions c8InputFar c8Rand).1 (by decide)

/-- **C8 counterexample.** The claim "every entity the planner creates
is placed at the spawn position" fails: on `c8Input` (Endless mode,
portal due) the planner emits a shop portal at `spawnZ - 35`, not at
`spawnZ`. -/
theorem c8_counterexample :
    ¬ (∀ o ∈ (spawnStep c8Input c8Rand).spawns, o.z = spawnZFor c8Input) := by
  have hgap : furthestZ c8Input.keptObjects > -SPAWN_DISTANCE := by decide
  have hportal : portalSpawns c8Input (spawnZFor c8Input) =
      ([c8Portal], c8Input.nextPortalDistance + 520) := by
    unfold portalSpawns
    rw [if_pos ⟨rfl, by decide, by decide⟩]
    rfl
  have hmain : mainSpawns c8Input c8Rand (spawnZFor c8Input) =
      ([], c8Input.nextLetterDistance) := by
    simp only [mainSpawns]
    rw [if_neg (by decide), if_neg (by norm_num [c8Rand])]
  have hspawns : (spawnStep c8Input c8Rand).spawns = [c8Portal] := by
    unfold spawnStep
    rw [if_pos hgap]
    show (portalSpawns c8Input (spawnZFor c8Input)).1 ++
        (mainSpawns c8Input c8Rand (spawnZFor c8Input)).1 = [c8Portal]
    rw [hportal, hmain]
    rfl
  intro hall
  have h := hall c8Portal (by rw [hspawns]; exact List.mem_singleton_self _)
  have h35 : spawnZFor c8Input - 35 = spawnZFor c8Input := h
  have hzero : (35 : ℚ) = 0 := by linarith
  norm_num at hzero

end Runner
